import Mathlib

/-!
Shallow embedding of the news rewrite-and-publish backend
(src/api_clients.py, src/publish.py, src/routes.py, src/models.py),
with theorems settling the behavioural claims about it.

Strings are modelled by Lean `String` / `List Char`; Python string
primitives (split, join, strip, lower, substring containment) are
embedded as executable functions below.
-/

/-! ## Embedded data model and operations -/

/-- Python-style substring prefix test: leadsWith sub l is true when
sub occurs at the head of l (empty sub always matches). -/
def leadsWith : List Char → List Char → Bool
  | [], _ => true
  | _ :: _, [] => false
  | c :: cs, d :: ds => (c = d) && leadsWith cs ds

/-- Python `sub in s` on char lists: sub occurs contiguously in s. -/
def strIn (sub : List Char) : List Char → Bool
  | [] => leadsWith sub []
  | c :: cs => leadsWith sub (c :: cs) || strIn sub cs

/-- Python `sub in s` on strings. -/
def pyIn (sub s : String) : Bool := strIn sub.data s.data

/-- ASCII upper-to-lower table, embedding Python str.lower restricted to
the character repertoire this program handles (ASCII letters plus
caseless Devanagari). -/
def asciiLowerTable : List (Char × Char) :=
  [('A', 'a'), ('B', 'b'), ('C', 'c'), ('D', 'd'), ('E', 'e'), ('F', 'f'),
   ('G', 'g'), ('H', 'h'), ('I', 'i'), ('J', 'j'), ('K', 'k'), ('L', 'l'),
   ('M', 'm'), ('N', 'n'), ('O', 'o'), ('P', 'p'), ('Q', 'q'), ('R', 'r'),
   ('S', 's'), ('T', 't'), ('U', 'u'), ('V', 'v'), ('W', 'w'), ('X', 'x'),
   ('Y', 'y'), ('Z', 'z')]

/-- Lowercase one character (identity off the table). -/
def charLower (c : Char) : Char := (asciiLowerTable.lookup c).getD c

/-- Python str.lower on strings. -/
def pyLower (s : String) : String := ⟨s.data.map charLower⟩

/-- Characters stripped by Python str.strip() (ASCII whitespace). -/
def isPySpace (c : Char) : Bool :=
  c = ' ' || c = '\t' || c = '\n' || c = '\r' || c = '\x0b' || c = '\x0c'

/-- Python str.strip() on char lists. -/
def stripList (l : List Char) : List Char :=
  ((l.dropWhile isPySpace).reverse.dropWhile isPySpace).reverse

/-- Python str.strip() on strings. -/
def pyStrip (s : String) : String := ⟨stripList s.data⟩

/-- Python s.split("\n\n") on char lists: split on non-overlapping
occurrences of a double newline, scanning left to right. -/
def splitNN : List Char → List (List Char)
  | [] => [[]]
  | [c] => [[c]]
  | c :: d :: rest =>
    if c = '\n' ∧ d = '\n' then [] :: splitNN rest
    else
      match splitNN (d :: rest) with
      | [] => [[c]]
      | h :: t => (c :: h) :: t

/-- Python sep.join(parts) on char lists. -/
def pyJoin (sep : List Char) : List (List Char) → List Char
  | [] => []
  | [x] => x
  | x :: y :: t => x ++ sep ++ pyJoin sep (y :: t)

/-- The double-newline separator. -/
def nlnl : List Char := ['\n', '\n']

/-- format_output from src/api_clients.py: split the raw output on double
newlines and re-join the paragraphs with double newlines. -/
def format_output (raw : String) : String :=
  ⟨pyJoin nlnl (splitNN raw.data)⟩

/-- Behaviour of one provider-adapter invocation, seen from the caller:
the underlying call either returns a Python value (a string or None,
modelled as Option String) or raises an exception. -/
inductive AdapterRun where
  | returns (r : Option String)
  | raises (msg : String)
deriving DecidableEq, Repr

/-- The outcome of one blocking Azure backend call, as seen inside
sync_azure_call: a successful completion carrying the message content,
a structured HttpResponseError with its status code, or an unstructured
exception whose str(e) is msg. -/
inductive AzureRun where
  | success (content : String)
  | httpError (status_code : Nat) (msg : String)
  | genericError (msg : String)
deriving DecidableEq, Repr

/-- sync_azure_call from src/api_clients.py (the body of call_azure_api):
success returns the stripped content; HttpResponseError returns the
rate-limit sentinel exactly on status 429 and None otherwise; any other
exception returns the sentinel when the lowercased message contains one
of the rate-limit substrings, and None otherwise. -/
def sync_azure_call (run : AzureRun) : Option String :=
  match run with
  | .success content => some (pyStrip content)
  | .httpError status_code _ =>
      if status_code = 429 then some "RATE_LIMIT_REACHED" else none
  | .genericError msg =>
      let error_str := pyLower msg
      if pyIn "ratelimitreached" error_str ||
         pyIn "rate limit" error_str ||
         pyIn "429" error_str ||
         pyIn "quota exceeded" error_str ||
         pyIn "too many requests" error_str then
        some "RATE_LIMIT_REACHED"
      else
        none

/-- api_mapping from process_article: the static provider table mapping
a client-supplied key to (api_type, model). -/
def api_mapping : List (String × String × String) :=
  [("azure_gpt41", "azure", "openai/gpt-4.1"),
   ("azure_gpt41_nano", "azure", "openai/gpt-4.1-nano"),
   ("openrouter_gpt41_nano", "openrouter", "openai/gpt-4.1-nano"),
   ("openrouter_deepseek", "openrouter", "deepseek/deepseek-r1-0528:free"),
   ("azure_gpt41_mini", "azure", "openai/gpt-4.1-mini"),
   ("azure_grok", "azure", "xai/grok-3-mini"),
   ("openrouter_gpt35", "openrouter", "openai/gpt-3.5-turbo"),
   ("openrouter_gemma", "openrouter", "google/gemma-3-27b-it:free"),
   ("openrouter_claude3", "openrouter", "anthropic/claude-3-haiku")]

/-- Dictionary lookup in the provider table. -/
def lookupApi (k : String) : Option (String × String) :=
  (api_mapping.find? (fun e => e.1 = k)).map (fun e => e.2)

/-- Python news.replace(a, b) for non-empty a equals b.join(news.split(a));
this embeds article.replace with the paragraph-break marker insertion of
process_article. -/
def mark_paragraphs (article : String) : String :=
  ⟨pyJoin "\n\n[PARAGRAPH_BREAK]\n\n".data (splitNN article.data)⟩

/-- The prompt built by process_article from the marked-up article. -/
def build_prompt (article : String) : String :=
  "Original news:\n" ++ mark_paragraphs article ++ "\n\nRewritten news:\n"

/-- process_article from src/api_clients.py, with the provider adapter
supplied as an oracle mapping the prompt to the adapter run's behaviour
(this stands for call_azure_api / call_api, whichever the table selects).
The result pairs the Python return or raised exception (Except.error is
an uncaught raise) with the number of adapter invocations made. -/
def process_article (adapter : String → AdapterRun)
    (article selected_api : String) : Except String (Option String) × Nat :=
  match lookupApi selected_api with
  | none => (Except.error "Invalid API selected", 0)
  | some _ =>
    match adapter (build_prompt article) with
    | .raises _ => (Except.ok none, 1)
    | .returns none => (Except.ok none, 1)
    | .returns (some s) =>
      if s = "RATE_LIMIT_REACHED" then (Except.ok (some "RATE_LIMIT_REACHED"), 1)
      else if s ≠ "" then (Except.ok (some (format_output s)), 1)
      else (Except.ok none, 1)

/-- HTTP-level result of the /rewrite route: 200 with the rewritten text,
or an HTTPException with a status code and detail. -/
inductive RewriteHttp where
  | ok (rewritten_news : String)
  | err (status_code : Nat) (detail : String)
deriving DecidableEq, Repr

/-- Display names used in the /rewrite route's messages. -/
def api_mapping_names : List (String × String) :=
  [("azure_gpt41", "Azure GPT-4.1"),
   ("azure_gpt41_nano", "Azure GPT-4.1 Nano"),
   ("openrouter_gpt41_nano", "OpenRouter GPT-4.1 Nano"),
   ("openrouter_deepseek", "OpenRouter DeepSeek"),
   ("azure_gpt41_mini", "Azure GPT-4.1 Mini"),
   ("azure_grok", "Azure Grok"),
   ("openrouter_gpt35", "OpenRouter GPT-3.5"),
   ("openrouter_gemma", "Openrouter Gemma"),
   ("openrouter_claude3", "Openrouter Claude-3")]

/-- The /rewrite route from src/routes.py: reject empty (after strip)
content with a 400 before dispatching; otherwise call process_article and
map its value to 200 / 429 / 500; an exception raised by process_article
(the invalid-key ValueError) is caught by the generic handler and
surfaced as a 500. Also returns the number of adapter invocations. -/
def rewrite_route (adapter : String → AdapterRun)
    (news selected_api : String) : RewriteHttp × Nat :=
  if pyStrip news = "" then
    (.err 400 "News content cannot be empty", 0)
  else
    let display := ((api_mapping_names.lookup selected_api).getD selected_api)
    match process_article adapter news selected_api with
    | (.error _, n) =>
        (.err 500 "An unexpected error occurred during news rewriting.", n)
    | (.ok (some s), n) =>
        if s = "RATE_LIMIT_REACHED" then
          (.err 429 ("Rate limit reached for " ++ display ++
            ". Please try a different API option from the dropdown."), n)
        else if s ≠ "" then (.ok s, n)
        else (.err 500 ("Unable to process your request with " ++ display ++
          ". No content returned."), n)
    | (.ok none, n) =>
        (.err 500 ("Unable to process your request with " ++ display ++
          ". No content returned."), n)

/-- Python truthiness of os.environ.get results and of strings obtained
from them: falsy when missing (None) or empty. -/
def envTruthy : Option String → Bool
  | none => false
  | some s => s ≠ ""

/-- The environment variables publish_news_to_wordpress reads. -/
structure PublishEnv where
  site_url : Option String
  api_token : Option String
  app_password : Option String
deriving DecidableEq, Repr

/-- The JSON fields publish_news_to_wordpress reads out of a parsed CMS
response body (each via .get, so each possibly absent). -/
structure RespJson where
  status : Option String := none
  msg : Option String := none
  permalink : Option String := none
  message : Option String := none
deriving DecidableEq, Repr

/-- A CMS response body, either valid JSON (restricted to the fields the
code reads) or undecodable; for the undecodable case, text is the raw
response text and errmsg stands for str(e) of the JSONDecodeError. -/
inductive RespBody where
  | valid (j : RespJson)
  | invalid (text : String) (errmsg : String)
deriving DecidableEq, Repr

/-- The outcome of the requests.post call to the CMS publish endpoint:
an HTTP response, or one of the exception classes the code catches. -/
inductive PostOutcome where
  | response (status_code : Nat) (body : RespBody)
  | connectionError (msg : String)
  | timeoutError (msg : String)
  | requestError (msg : String)
  | otherError (msg : String)
deriving DecidableEq, Repr

/-- The payload dict the code POSTs to the CMS publish endpoint. -/
structure Payload where
  title : String
  content : String
  wpToken : String
  post_status : String
  catIds : List Nat
  tagNames : List String
  featured_image_id : Option Int
deriving DecidableEq, Repr

/-- A network operation performed by one publish call, in order: the
category-map GET issued by get_wordpress_categories, or the publish POST
with its payload. -/
inductive NetOp where
  | fetchCategories
  | postPublish (p : Payload)
deriving DecidableEq, Repr

/-- The dict returned by publish_news_to_wordpress, restricted to the
keys the code writes. -/
structure PubResult where
  status : String
  detail : Option String := none
  message : Option String := none
  permalink : Option String := none
deriving DecidableEq, Repr

/-- The argument dict built by the /publish route for
publish_news_to_wordpress (post_status is placed in the dict by the
route, whether or not the callee reads it). -/
structure NewsData where
  news : String
  featured_image_id : Option Int := none
  categories : List String := []
  tags : List String := []
  post_status : String := "publish"
deriving DecidableEq, Repr

/-- Python news_content.split(chr(10), 1): the text before the first
line break, and the remainder when a break exists. -/
def splitOnceNl : List Char → List Char × Option (List Char)
  | [] => ([], none)
  | c :: rest =>
    if c = '\n' then ([], some rest)
    else
      let p := splitOnceNl rest
      (c :: p.1, p.2)

/-- The title computed by publish_news_to_wordpress: first line, stripped
(the split list is never empty, so the Untitled fallback is dead). -/
def pubTitle (news_content : String) : String :=
  pyStrip ⟨(splitOnceNl news_content.data).1⟩

/-- The body computed by publish_news_to_wordpress: remainder after the
first line break, stripped; empty when there is no line break. -/
def pubBody (news_content : String) : String :=
  match (splitOnceNl news_content.data).2 with
  | some rest => pyStrip ⟨rest⟩
  | none => ""

/-- Python dict .get on the category map fetched from the CMS. -/
def lookupCat (wp_categories : List (String × Nat)) (name : String) :
    Option Nat :=
  (wp_categories.find? (fun e => e.1 = name)).map (fun e => e.2)

/-- category_ids from publish_news_to_wordpress: each requested name is
looked up in the category map and appended when the result is truthy
(a present, non-zero id); otherwise it is skipped with a warning. -/
def category_ids (wp_categories : List (String × Nat))
    (selected_categories_names : List String) : List Nat :=
  selected_categories_names.filterMap (fun cat_name =>
    match lookupCat wp_categories cat_name with
    | some i => if i ≠ 0 then some i else none
    | none => none)

/-- keyword_tags from publish_news_to_wordpress: the static keyword-to-tag
table scanned against the lowercased content. -/
def keyword_tags : List (String × String) :=
  [("सुन", "सुनको भाउ"),
   ("चाँदी", "चाँदीको भाउ"),
   ("डलर", "विदेशी मुद्रा"),
   ("शेयर", "शेयर बजार"),
   ("बैंक", "बैंकिङ"),
   ("निर्वाचन", "निर्वाचन"),
   ("राजनीति", "राजनीति"),
   ("अर्थ", "अर्थतन्त्र"),
   ("खेल", "खेलकुद"),
   ("फुटबल", "खेलकुद"),
   ("क्रिकेट", "खेलकुद"),
   ("मौसम", "मौसम"),
   ("कोभिड", "स्वास्थ्य"),
   ("स्वास्थ्य", "स्वास्थ्य"),
   ("शिक्षा", "शिक्षा"),
   ("प्रविधि", "प्रविधि"),
   ("Banner", "Banner")]

/-- The lowercased scan content: (title + " " + body).lower(). -/
def content_lower (title body : String) : String :=
  pyLower (title ++ " " ++ body)

/-- auto_tags from publish_news_to_wordpress: a table entry contributes
its tag when its keyword occurs in the lowercased content and the tag was
not already requested. -/
def auto_tags (cl : String) (selected_tags_names : List String) :
    List String :=
  keyword_tags.filterMap (fun kt =>
    if pyIn kt.1 cl && !(selected_tags_names.contains kt.2) then some kt.2
    else none)

/-- all_tags_to_send from publish_news_to_wordpress:
list(set(selected + auto)), modelled as duplicate erasure (Python's set
iteration order is unspecified; every claim about this value is a claim
about its members). -/
def all_tags_to_send (selected_tags_names : List String) (cl : String) :
    List String :=
  (selected_tags_names ++ auto_tags cl selected_tags_names).dedup

/-- publish_news_to_wordpress from src/publish.py. catFetch is the
category map that get_wordpress_categories would return (it returns {} on
its own request errors, so an error fetch is the empty map); postOutcome
is the behaviour of the requests.post call to the publish endpoint. The
result pairs the returned dict with the trace of network operations, in
order. -/
def publish_news_to_wordpress (env : PublishEnv)
    (catFetch : List (String × Nat)) (postOutcome : PostOutcome)
    (news_data : NewsData) : PubResult × List NetOp :=
  if ¬ envTruthy env.site_url then
    ({ status := "error", detail := some "WORDPRESS_SITE_URL not set." }, [])
  else if ¬ envTruthy env.api_token then
    ({ status := "error", detail := some "WORDPRESS_API_TOKEN not set." }, [])
  else
    let fetched : List (String × Nat) × List NetOp :=
      if envTruthy env.app_password then (catFetch, [NetOp.fetchCategories])
      else ([], [])
    let wp_categories := fetched.1
    let ops0 := fetched.2
    let title := pubTitle news_data.news
    let body := pubBody news_data.news
    if title = "" ∨ body = "" then
      ({ status := "error",
         detail := some "News content must contain both a title and a body." },
       ops0)
    else
      let catIds := category_ids wp_categories news_data.categories
      let cl := content_lower title body
      let tags := all_tags_to_send news_data.tags cl
      let payload : Payload :=
        { title := title, content := body,
          wpToken := (env.api_token.getD ""), post_status := "publish",
          catIds := catIds, tagNames := tags,
          featured_image_id := news_data.featured_image_id }
      let ops := ops0 ++ [NetOp.postPublish payload]
      let result : PubResult :=
        match postOutcome with
        | .response status_code bodyResp =>
          if status_code = 200 then
            match bodyResp with
            | .valid j =>
              if j.status = some "success" then
                { status := "success",
                  message := some "News published successfully!",
                  permalink := j.permalink }
              else
                { status := "error",
                  detail := some (j.msg.getD "Unknown error from WordPress.") }
            | .invalid _ errmsg =>
              { status := "error",
                detail := some ("Invalid JSON response from WordPress: " ++
                  errmsg) }
          else
            match bodyResp with
            | .valid j =>
              { status := "error",
                detail := some ("WordPress API error: " ++
                  (j.message.getD "Unknown error")) }
            | .invalid text _ =>
              { status := "error",
                detail := some ("WordPress API error (non-JSON response): " ++
                  text.take 200) }
        | .connectionError m =>
          { status := "error",
            detail := some ("Connection to WordPress failed: " ++ m) }
        | .timeoutError m =>
          { status := "error",
            detail := some ("Request to WordPress timed out: " ++ m) }
        | .requestError m =>
          { status := "error",
            detail := some ("An unexpected request error occurred: " ++ m) }
        | .otherError m =>
          { status := "error",
            detail := some ("A critical internal error occurred: " ++ m) }
      (result, ops)

/-- PublishRequest from src/models.py. -/
structure PublishRequestM where
  news : String
  featured_image_id : Option Int := none
  categories : List String := []
  tags : List String := []
  post_status : String := "publish"
deriving DecidableEq, Repr

/-- HTTP-level result of the /publish route. -/
inductive PublishHttp where
  | ok (message : Option String) (permalink : Option String)
  | err (status_code : Nat) (detail : String)
deriving DecidableEq, Repr

/-- The /publish route from src/routes.py: reject empty (after strip)
news with a 400; otherwise build the publish_data dict (including the
request's post_status) and delegate to publish_news_to_wordpress, mapping
its dict to 200 on success and 500 otherwise. -/
def publish_route (env : PublishEnv) (catFetch : List (String × Nat))
    (postOutcome : PostOutcome) (req : PublishRequestM) :
    PublishHttp × List NetOp :=
  if pyStrip req.news = "" then
    (.err 400 "News content cannot be empty", [])
  else
    let publish_data : NewsData :=
      { news := req.news, featured_image_id := req.featured_image_id,
        categories := req.categories, tags := req.tags,
        post_status := req.post_status }
    let r := publish_news_to_wordpress env catFetch postOutcome publish_data
    if r.1.status = "success" then
      (.ok r.1.message r.1.permalink, r.2)
    else
      (.err 500 ("Publishing failed: " ++
        (r.1.detail.getD "Unknown error occurred")), r.2)

/-- A provider adapter stub that answers every prompt with a fixed text. -/
def stubAdapter : String → AdapterRun := fun _ => AdapterRun.returns (some "ok")

/-- A fully configured publishing environment (app password present). -/
def envPw : PublishEnv :=
  { site_url := some "https://example.org", api_token := some "tok",
    app_password := some "pw" }

/-- A publishing environment with no app password (no category fetch). -/
def envNoPw : PublishEnv :=
  { site_url := some "https://example.org", api_token := some "tok",
    app_password := none }

/-- A CMS publish response reporting success with a permalink. -/
def postSuccess : PostOutcome :=
  .response 200 (.valid { status := some "success",
                          permalink := some "https://example.org/p" })

/-- The result dict of publish_news_to_wordpress as a function of the
environment, the POST outcome and the computed title/body alone (the
category and tag inputs never influence it). -/
def pubResult (env : PublishEnv) (post : PostOutcome)
    (title body : String) : PubResult :=
  if ¬ envTruthy env.site_url then
    { status := "error", detail := some "WORDPRESS_SITE_URL not set." }
  else if ¬ envTruthy env.api_token then
    { status := "error", detail := some "WORDPRESS_API_TOKEN not set." }
  else if title = "" ∨ body = "" then
    { status := "error",
      detail := some "News content must contain both a title and a body." }
  else
    match post with
    | .response status_code bodyResp =>
      if status_code = 200 then
        match bodyResp with
        | .valid j =>
          if j.status = some "success" then
            { status := "success",
              message := some "News published successfully!",
              permalink := j.permalink }
          else
            { status := "error",
              detail := some (j.msg.getD "Unknown error from WordPress.") }
        | .invalid _ errmsg =>
          { status := "error",
            detail := some ("Invalid JSON response from WordPress: " ++
              errmsg) }
      else
        match bodyResp with
        | .valid j =>
          { status := "error",
            detail := some ("WordPress API error: " ++
              (j.message.getD "Unknown error")) }
        | .invalid text _ =>
          { status := "error",
            detail := some ("WordPress API error (non-JSON response): " ++
              text.take 200) }
    | .connectionError m =>
      { status := "error",
        detail := some ("Connection to WordPress failed: " ++ m) }
    | .timeoutError m =>
      { status := "error",
        detail := some ("Request to WordPress timed out: " ++ m) }
    | .requestError m =>
      { status := "error",
        detail := some ("An unexpected request error occurred: " ++ m) }
    | .otherError m =>
      { status := "error",
        detail := some ("A critical internal error occurred: " ++ m) }

/-! ## Helper lemmas and claim theorems -/

theorem splitNN_ne_nil (l : List Char) : splitNN l ≠ [] := by
  match l with
  | [] => simp [splitNN]
  | [c] => simp [splitNN]
  | c :: d :: rest =>
    rw [splitNN]
    split
    · simp
    · cases h : splitNN (d :: rest) <;> simp

theorem pyJoin_cons (sep : List Char) (c : Char) (h : List Char)
    (t : List (List Char)) :
    pyJoin sep ((c :: h) :: t) = c :: pyJoin sep (h :: t) := by
  cases t with
  | nil => simp [pyJoin]
  | cons y t => simp [pyJoin]

theorem pyJoin_splitNN (l : List Char) : pyJoin nlnl (splitNN l) = l := by
  match l with
  | [] => simp [splitNN, pyJoin]
  | [c] => simp [splitNN, pyJoin]
  | c :: d :: rest =>
    rw [splitNN]
    split
    · rename_i hcd
      obtain ⟨hc, hd⟩ := hcd
      subst hc; subst hd
      have ih := pyJoin_splitNN rest
      cases h : splitNN rest with
      | nil => exact absurd h (splitNN_ne_nil rest)
      | cons x t =>
        rw [h] at ih
        simp only [pyJoin]
        rw [ih]
        simp [nlnl]
    · have ih := pyJoin_splitNN (d :: rest)
      cases h : splitNN (d :: rest) with
      | nil => exact absurd h (splitNN_ne_nil (d :: rest))
      | cons x t =>
        rw [h] at ih
        rw [pyJoin_cons, ih]

theorem format_output_id (s : String) : format_output s = s := by
  show String.mk (pyJoin nlnl (splitNN s.data)) = s
  rw [pyJoin_splitNN]

theorem lookup_snd_mem {α β : Type} [BEq α] (l : List (α × β)) (a : α)
    (v : β) (h : l.lookup a = some v) : v ∈ l.map Prod.snd := by
  induction l with
  | nil => simp [List.lookup] at h
  | cons p t ih =>
    rw [List.lookup] at h
    by_cases hk : (a == p.1) = true
    · rw [hk] at h
      simp only [Option.some.injEq] at h
      subst h
      simp
    · rw [Bool.not_eq_true] at hk
      rw [hk] at h
      simp [ih h]

theorem charLower_ne_B (c : Char) : charLower c ≠ 'B' := by
  unfold charLower
  cases h : asciiLowerTable.lookup c with
  | some v =>
    have hv : v ∈ asciiLowerTable.map Prod.snd := lookup_snd_mem _ _ _ h
    have : ('B' : Char) ∉ asciiLowerTable.map Prod.snd := by decide
    intro heq
    simp only [Option.getD_some] at heq
    exact this (heq ▸ hv)
  | none =>
    intro heq
    simp only [Option.getD_none] at heq
    subst heq
    exact absurd h (by decide)

theorem strIn_map_charLower_head (c0 : Char) (rest : List Char)
    (hc : ∀ x, charLower x ≠ c0) (l : List Char) :
    strIn (c0 :: rest) (l.map charLower) = false := by
  induction l with
  | nil => simp [strIn, leadsWith]
  | cons c t ih =>
    simp only [List.map_cons, strIn, leadsWith]
    have : (decide (c0 = charLower c)) = false := by
      simp [Ne.symm (hc c)]
    simp [this, ih]

theorem banner_not_in_lower (s : String) :
    pyIn "Banner" (pyLower s) = false := by
  show strIn ('B' :: "anner".data) (s.data.map charLower) = false
  exact strIn_map_charLower_head 'B' _ charLower_ne_B s.data

/-- Claim C1 (code bug): the /publish route passes the request's
post_status down in publish_data, but publish_news_to_wordpress builds
the POST payload with the hard-coded status "publish"; at the concrete
failing input post_status = "draft" the sole CMS POST carries status
"publish", contradicting the contract that the payload's status equals
the post_status supplied in the request. -/
theorem c1_post_status_hardcoded :
    ({ news := "Title\nBody", post_status := "draft" } :
      PublishRequestM).post_status = "draft" ∧
    (publish_route envNoPw [] postSuccess
      { news := "Title\nBody", post_status := "draft" }).2 =
      [NetOp.postPublish
        { title := "Title", content := "Body", wpToken := "tok",
          post_status := "publish", catIds := [], tagNames := [],
          featured_image_id := none }] :=
  ⟨rfl, rfl⟩

/-- Claim C4 counterexample: an unstructured exception whose message is
"RateLimitReached" contains none of the four substrings the claim lists,
yet the synchronous-backend adapter returns the rate-limit sentinel
rather than None, because the code also checks the fifth substring
"ratelimitreached". -/
theorem c4_counterexample :
    sync_azure_call (.genericError "RateLimitReached") =
      some "RATE_LIMIT_REACHED" ∧
    pyIn "rate limit" (pyLower "RateLimitReached") = false ∧
    pyIn "429" (pyLower "RateLimitReached") = false ∧
    pyIn "quota exceeded" (pyLower "RateLimitReached") = false ∧
    pyIn "too many requests" (pyLower "RateLimitReached") = false := by
  decide

/-- Claim C4 as amended: on a structured HTTP error the sentinel is
returned exactly when the status is 429; on an unstructured error the
sentinel is returned exactly when the lowercased message contains one of
the five substrings "ratelimitreached", "rate limit", "429",
"quota exceeded", "too many requests"; every other error yields None. -/
theorem c4_amended (st : Nat) (em m : String) :
    (sync_azure_call (.httpError st em) = some "RATE_LIMIT_REACHED" ↔
      st = 429) ∧
    (sync_azure_call (.httpError st em) = some "RATE_LIMIT_REACHED" ∨
      sync_azure_call (.httpError st em) = none) ∧
    (sync_azure_call (.genericError m) = some "RATE_LIMIT_REACHED" ↔
      (pyIn "ratelimitreached" (pyLower m) = true ∨
       pyIn "rate limit" (pyLower m) = true ∨
       pyIn "429" (pyLower m) = true ∨
       pyIn "quota exceeded" (pyLower m) = true ∨
       pyIn "too many requests" (pyLower m) = true)) ∧
    (sync_azure_call (.genericError m) = some "RATE_LIMIT_REACHED" ∨
      sync_azure_call (.genericError m) = none) := by
  refine ⟨?_, ?_, ?_, ?_⟩ <;> simp only [sync_azure_call]
  · split <;> rename_i h <;> simp [h]
  · split <;> simp
  · split <;> rename_i h <;>
      simp only [Bool.or_eq_true, not_or, Bool.not_eq_true] at h <;>
      simp [h] <;> tauto
  · split <;> simp

/-- Claim C10: the keyword "Banner" contains an uppercase letter while
the scanned content is lowercased, so the "Banner" tag is never
auto-inferred; it reaches the final tag set only when explicitly
requested. -/
theorem c10_banner_never_inferred (title body : String)
    (selected : List String) :
    "Banner" ∉ auto_tags (content_lower title body) selected ∧
    ("Banner" ∈ all_tags_to_send selected (content_lower title body) ↔
      "Banner" ∈ selected) := by
  have hb : pyIn "Banner" (content_lower title body) = false :=
    banner_not_in_lower (title ++ " " ++ body)
  have hauto : "Banner" ∉ auto_tags (content_lower title body) selected := by
    intro hmem
    unfold auto_tags at hmem
    rw [List.mem_filterMap] at hmem
    obtain ⟨kt, hkt, hsome⟩ := hmem
    by_cases hcond :
        (pyIn kt.1 (content_lower title body) &&
          !(selected.contains kt.2)) = true
    · rw [if_pos hcond] at hsome
      simp only [Option.some.injEq] at hsome
      have honly : ∀ kt ∈ keyword_tags, kt.2 = "Banner" →
          kt.1 = "Banner" := by decide
      have h1 : kt.1 = "Banner" := honly kt hkt hsome
      rw [Bool.and_eq_true] at hcond
      rw [h1, hb] at hcond
      exact absurd hcond.1 (by simp)
    · rw [if_neg hcond] at hsome
      exact Option.noConfusion hsome
  refine ⟨hauto, ?_⟩
  unfold all_tags_to_send
  rw [List.mem_dedup, List.mem_append]
  constructor
  · rintro (h | h)
    · exact h
    · exact absurd h hauto
  · exact Or.inl

/-- Claim C2: for every article and every provider key present in the
static table, process_article returns (never raises) exactly one of a
non-empty success string, the rate-limit sentinel, or None, whatever the
selected adapter does, including raising. -/
theorem c2_dispatch_never_raises (adapter : String → AdapterRun)
    (article selected_api : String) (h : lookupApi selected_api ≠ none) :
    ∃ r n, process_article adapter article selected_api = (Except.ok r, n) ∧
      (r = none ∨ r = some "RATE_LIMIT_REACHED" ∨
        ∃ s, r = some s ∧ s ≠ "" ∧ s ≠ "RATE_LIMIT_REACHED") := by
  unfold process_article
  cases hl : lookupApi selected_api with
  | none => exact absurd hl h
  | some v =>
    cases ha : adapter (build_prompt article) with
    | raises m => exact ⟨none, 1, rfl, Or.inl rfl⟩
    | returns r =>
      cases r with
      | none => exact ⟨none, 1, rfl, Or.inl rfl⟩
      | some s =>
        by_cases hs : s = "RATE_LIMIT_REACHED"
        · subst hs
          exact ⟨some "RATE_LIMIT_REACHED", 1, by simp, Or.inr (Or.inl rfl)⟩
        · by_cases he : s = ""
          · subst he
            exact ⟨none, 1, by simp, Or.inl rfl⟩
          · refine ⟨some s, 1, ?_, Or.inr (Or.inr ⟨s, rfl, he, hs⟩)⟩
            simp [hs, he, format_output_id]

/-- Claim C2 witness at a concrete table key and stub adapter. -/
theorem c2_dispatch_never_raises_witness :
    ∃ r n, process_article stubAdapter "hello" "azure_gpt41" =
        (Except.ok r, n) ∧
      (r = none ∨ r = some "RATE_LIMIT_REACHED" ∨
        ∃ s, r = some s ∧ s ≠ "" ∧ s ≠ "RATE_LIMIT_REACHED") :=
  c2_dispatch_never_raises stubAdapter "hello" "azure_gpt41" (by decide)

/-- Claim C3: a rewrite request with empty or whitespace-only article
text is rejected with a 400 before the dispatcher runs, and an unknown
provider key makes process_article raise the invalid-input ValueError
before the adapter is invoked; in both cases the adapter-invocation
count is zero. -/
theorem c3_invalid_input_no_call (adapter : String → AdapterRun)
    (news selected_api : String) :
    (pyStrip news = "" →
      rewrite_route adapter news selected_api =
        (.err 400 "News content cannot be empty", 0)) ∧
    (lookupApi selected_api = none →
      process_article adapter news selected_api =
        (Except.error "Invalid API selected", 0)) ∧
    (lookupApi selected_api = none →
      (rewrite_route adapter news selected_api).2 = 0) := by
  refine ⟨fun hempty => ?_, fun hkey => ?_, fun hkey => ?_⟩
  · simp [rewrite_route, hempty]
  · simp [process_article, hkey]
  · by_cases hempty : pyStrip news = ""
    · simp [rewrite_route, hempty]
    · simp [rewrite_route, hempty, process_article, hkey]

/-- Claim C3 witness: whitespace-only text and an unknown key. -/
theorem c3_invalid_input_no_call_witness :
    rewrite_route stubAdapter " " "bogus" =
      (.err 400 "News content cannot be empty", 0) ∧
    process_article stubAdapter " " "bogus" =
      (Except.error "Invalid API selected", 0) ∧
    (rewrite_route stubAdapter " " "bogus").2 = 0 :=
  ⟨(c3_invalid_input_no_call stubAdapter " " "bogus").1 (by decide),
   (c3_invalid_input_no_call stubAdapter " " "bogus").2.1 (by decide),
   (c3_invalid_input_no_call stubAdapter " " "bogus").2.2 (by decide)⟩

/-- Claim C7: the success-path reformatting is the identity on strings,
so a successful rewrite returns the adapter output unchanged; the
sentinel maps to the rate-limited value and falsy adapter results (None
or the empty string) and adapter exceptions map to None (Failure). -/
theorem c7_format_passthrough :
    (∀ s : String, format_output s = s) ∧
    ∀ (adapter : String → AdapterRun) (article key : String),
      lookupApi key ≠ none →
      ((adapter (build_prompt article) =
          .returns (some "RATE_LIMIT_REACHED") →
        process_article adapter article key =
          (Except.ok (some "RATE_LIMIT_REACHED"), 1)) ∧
       (∀ s, adapter (build_prompt article) = .returns (some s) →
        s ≠ "" → s ≠ "RATE_LIMIT_REACHED" →
        process_article adapter article key = (Except.ok (some s), 1)) ∧
       ((adapter (build_prompt article) = .returns none ∨
         adapter (build_prompt article) = .returns (some "") ∨
         ∃ m, adapter (build_prompt article) = .raises m) →
        process_article adapter article key = (Except.ok none, 1))) := by
  refine ⟨format_output_id, fun adapter article key hk => ⟨?_, ?_, ?_⟩⟩
  · intro ha
    unfold process_article
    cases hl : lookupApi key with
    | none => exact absurd hl hk
    | some v => rw [ha]; simp
  · intro s ha hne hrl
    unfold process_article
    cases hl : lookupApi key with
    | none => exact absurd hl hk
    | some v =>
      rw [ha]
      simp [hne, hrl, format_output_id]
  · intro ha
    unfold process_article
    cases hl : lookupApi key with
    | none => exact absurd hl hk
    | some v =>
      rcases ha with ha | ha | ⟨m, ha⟩ <;> rw [ha] <;> simp

/-- Claim C7 witness, applying the theorem at all three adapter shapes
over a concrete table key. -/
theorem c7_format_passthrough_witness :
    format_output "a\n\nb" = "a\n\nb" ∧
    process_article (fun _ => .returns (some "RATE_LIMIT_REACHED"))
      "x" "azure_gpt41" = (Except.ok (some "RATE_LIMIT_REACHED"), 1) ∧
    process_article stubAdapter "x" "azure_gpt41" =
      (Except.ok (some "ok"), 1) ∧
    process_article (fun _ => .raises "boom") "x" "azure_gpt41" =
      (Except.ok none, 1) :=
  ⟨c7_format_passthrough.1 "a\n\nb",
   (c7_format_passthrough.2 (fun _ => .returns (some "RATE_LIMIT_REACHED"))
      "x" "azure_gpt41" (by decide)).1 rfl,
   (c7_format_passthrough.2 stubAdapter "x" "azure_gpt41"
      (by decide)).2.1 "ok" rfl (by decide) (by decide),
   (c7_format_passthrough.2 (fun _ => .raises "boom") "x" "azure_gpt41"
      (by decide)).2.2 (Or.inr (Or.inr ⟨"boom", rfl⟩))⟩

theorem splitOnceNl_append (a b : List Char) (h : '\n' ∉ a) :
    splitOnceNl (a ++ '\n' :: b) = (a, some b) := by
  induction a with
  | nil => simp [splitOnceNl]
  | cons c t ih =>
    have hc : c ≠ '\n' := fun e => h (e ▸ List.mem_cons_self c t)
    have ht : '\n' ∉ t := fun m => h (List.mem_cons_of_mem c m)
    simp [splitOnceNl, hc, ih ht]

theorem splitOnceNl_no_nl (l : List Char) (h : '\n' ∉ l) :
    splitOnceNl l = (l, none) := by
  induction l with
  | nil => simp [splitOnceNl]
  | cons c t ih =>
    have hc : c ≠ '\n' := fun e => h (e ▸ List.mem_cons_self c t)
    have ht : '\n' ∉ t := fun m => h (List.mem_cons_of_mem c m)
    simp [splitOnceNl, hc, ih ht]

/-- If the title/body validation rejects, the result is the validation
error and the trace is just the optional category fetch. -/
theorem publish_validation_reject (env : PublishEnv)
    (catFetch : List (String × Nat)) (post : PostOutcome) (nd : NewsData)
    (h1 : envTruthy env.site_url = true) (h2 : envTruthy env.api_token = true)
    (hval : pubTitle nd.news = "" ∨ pubBody nd.news = "") :
    publish_news_to_wordpress env catFetch post nd =
      ({ status := "error",
         detail := some "News content must contain both a title and a body." },
       if envTruthy env.app_password then [NetOp.fetchCategories] else []) := by
  unfold publish_news_to_wordpress
  rw [h1, h2]
  simp only [Bool.not_eq_true', Bool.true_eq_false, if_false]
  rw [if_pos hval]
  by_cases h3 : envTruthy env.app_password = true <;> simp [h3]

/-- Every publish POST in the trace carries exactly the payload built
from the computed title/body, the hard-coded status, the mapped category
ids and the merged tag list. -/
theorem postPublish_payload (env : PublishEnv)
    (catFetch : List (String × Nat)) (post : PostOutcome) (nd : NewsData)
    (p : Payload)
    (h : NetOp.postPublish p ∈ (publish_news_to_wordpress env catFetch post nd).2) :
    p = { title := pubTitle nd.news, content := pubBody nd.news,
          wpToken := env.api_token.getD "", post_status := "publish",
          catIds := category_ids
            (if envTruthy env.app_password then catFetch else [])
            nd.categories,
          tagNames := all_tags_to_send nd.tags
            (content_lower (pubTitle nd.news) (pubBody nd.news)),
          featured_image_id := nd.featured_image_id } := by
  unfold publish_news_to_wordpress at h
  by_cases h1 : envTruthy env.site_url = true
  · rw [h1] at h
    by_cases h2 : envTruthy env.api_token = true
    · rw [h2] at h
      simp only [Bool.not_eq_true', Bool.true_eq_false, if_false] at h
      by_cases hval : pubTitle nd.news = "" ∨ pubBody nd.news = ""
      · rw [if_pos hval] at h
        by_cases h3 : envTruthy env.app_password = true <;>
          simp [h3] at h
      · rw [if_neg hval] at h
        by_cases h3 : envTruthy env.app_password = true <;>
          simp [h3] at h ⊢ <;> simp [h]
    · simp only [Bool.not_eq_true'] at h
      rw [Bool.not_eq_true] at h2
      rw [h2] at h
      simp at h
  · rw [Bool.not_eq_true] at h1
    rw [h1] at h
    simp at h

/-- Claim C5 counterexample: with the app password configured, a publish
call whose article has no line break (so title/body validation fails)
still issues the category-map GET to the CMS before returning the
validation error, so the failure does not happen before every CMS
request. -/
theorem c5_counterexample :
    (publish_news_to_wordpress envPw [("X", 3)] postSuccess
      { news := "TitleOnly" }).1 =
      { status := "error",
        detail := some "News content must contain both a title and a body." } ∧
    (publish_news_to_wordpress envPw [("X", 3)] postSuccess
      { news := "TitleOnly" }).2 = [NetOp.fetchCategories] :=
  ⟨rfl, rfl⟩

/-- Claim C5 as amended: the publish operation splits article_text on the
first line break into a trimmed title and trimmed body, and fails with a
validation error — before sending the CMS publish POST, though the
category-map fetch may already have been issued — whenever either side
is empty after trimming; input with no line break fails, and the
quoted example splits as claimed. -/
theorem c5_amended (env : PublishEnv) (catFetch : List (String × Nat))
    (post : PostOutcome) (nd : NewsData) (s t : String) :
    (nd.news = s ++ "\n" ++ t → '\n' ∉ s.data →
      pubTitle nd.news = pyStrip s ∧ pubBody nd.news = pyStrip t) ∧
    ('\n' ∉ nd.news.data → pubBody nd.news = "") ∧
    (pubTitle nd.news = "" ∨ pubBody nd.news = "" →
      ∀ p, NetOp.postPublish p ∉
        (publish_news_to_wordpress env catFetch post nd).2) ∧
    (envTruthy env.site_url = true → envTruthy env.api_token = true →
      pubTitle nd.news = "" ∨ pubBody nd.news = "" →
      (publish_news_to_wordpress env catFetch post nd).1 =
        { status := "error",
          detail := some "News content must contain both a title and a body." }) ∧
    pubTitle "Title\nLine1\nLine2" = "Title" ∧
    pubBody "Title\nLine1\nLine2" = "Line1\nLine2" := by
  refine ⟨fun hnews hnl => ?_, fun hnl => ?_, fun hval p => ?_,
    fun h1 h2 hval => ?_, by decide, by decide⟩
  · rw [hnews]
    have hdata : (s ++ "\n" ++ t).data = s.data ++ '\n' :: t.data := by
      simp [String.data_append]
    unfold pubTitle pubBody
    rw [hdata, splitOnceNl_append s.data t.data hnl]
    exact ⟨rfl, rfl⟩
  · unfold pubBody
    rw [splitOnceNl_no_nl nd.news.data hnl]
  · unfold publish_news_to_wordpress
    by_cases h1 : envTruthy env.site_url = true
    · rw [h1]
      by_cases h2 : envTruthy env.api_token = true
      · rw [h2]
        simp only [Bool.not_eq_true', Bool.true_eq_false, if_false]
        rw [if_pos hval]
        by_cases h3 : envTruthy env.app_password = true <;> simp [h3]
      · rw [Bool.not_eq_true] at h2
        rw [h2]
        simp
    · rw [Bool.not_eq_true] at h1
      rw [h1]
      simp
  · rw [publish_validation_reject env catFetch post nd h1 h2 hval]

/-- Claim C5 witness, applying the amended theorem at an article whose
title strips to empty and at one with no line break. -/
theorem c5_amended_witness :
    (pubTitle " \n " = pyStrip " " ∧ pubBody " \n " = pyStrip " ") ∧
    pubBody "TitleOnly" = "" ∧
    (∀ p, NetOp.postPublish p ∉
      (publish_news_to_wordpress envPw [] postSuccess { news := " \n " }).2) ∧
    (publish_news_to_wordpress envPw [] postSuccess { news := " \n " }).1 =
      { status := "error",
        detail := some "News content must contain both a title and a body." } :=
  ⟨(c5_amended envPw [] postSuccess { news := " \n " } " " " ").1
      (by decide) (by decide),
   (c5_amended envPw [] postSuccess { news := "TitleOnly" } "" "").2.1
      (by decide),
   (c5_amended envPw [] postSuccess { news := " \n " } " " " ").2.2.1
      (Or.inl (by decide)),
   (c5_amended envPw [] postSuccess { news := " \n " } " " " ").2.2.2.1
      (by decide) (by decide) (Or.inl (by decide))⟩

theorem mem_auto_tags (cl : String) (sel : List String) (tag : String) :
    tag ∈ auto_tags cl sel ↔
      ∃ kt ∈ keyword_tags, kt.2 = tag ∧ pyIn kt.1 cl = true ∧ tag ∉ sel := by
  unfold auto_tags
  rw [List.mem_filterMap]
  constructor
  · rintro ⟨kt, hkt, hsome⟩
    by_cases hcond : (pyIn kt.1 cl && !(sel.contains kt.2)) = true
    · rw [if_pos hcond] at hsome
      injection hsome with heq
      rw [Bool.and_eq_true, Bool.not_eq_true'] at hcond
      refine ⟨kt, hkt, heq, hcond.1, fun hm => ?_⟩
      rw [← heq] at hm
      have h2 : List.elem kt.2 sel = false := hcond.2
      rw [List.elem_eq_true_of_mem hm] at h2
      exact Bool.true_eq_false.mp h2
    · rw [if_neg hcond] at hsome
      exact absurd hsome (by simp)
  · rintro ⟨kt, hkt, heq, hin, hnot⟩
    refine ⟨kt, hkt, ?_⟩
    have hc : List.elem kt.2 sel = false := by
      rw [heq]
      cases hm : List.elem tag sel with
      | true => exact absurd (List.mem_of_elem_eq_true hm) hnot
      | false => rfl
    have hcond : (pyIn kt.1 cl && !(sel.contains kt.2)) = true := by
      have hcc : sel.contains kt.2 = false := hc
      rw [hin, hcc]
      rfl
    rw [if_pos hcond, heq]

/-- Claim C6: a tag is in the final tag list sent to the CMS exactly when
it was requested or some keyword-table entry maps to it, the keyword
occurs in the lowercased title-plus-body, and the tag was not already
requested; with zero keyword matches the final tag set equals the
requested set; and every posted payload's tag list is exactly this
merged list. -/
theorem c6_tag_union (title body : String) (selected : List String)
    (tag : String) :
    (tag ∈ all_tags_to_send selected (content_lower title body) ↔
      tag ∈ selected ∨ ∃ kt ∈ keyword_tags, kt.2 = tag ∧
        pyIn kt.1 (content_lower title body) = true ∧ tag ∉ selected) ∧
    ((∀ kt ∈ keyword_tags, pyIn kt.1 (content_lower title body) = false) →
      (tag ∈ all_tags_to_send selected (content_lower title body) ↔
        tag ∈ selected)) ∧
    ∀ (env : PublishEnv) (catFetch : List (String × Nat))
      (post : PostOutcome) (nd : NewsData) (p : Payload),
      NetOp.postPublish p ∈
        (publish_news_to_wordpress env catFetch post nd).2 →
      p.tagNames = all_tags_to_send nd.tags
        (content_lower (pubTitle nd.news) (pubBody nd.news)) := by
  have hmain : tag ∈ all_tags_to_send selected (content_lower title body) ↔
      tag ∈ selected ∨ ∃ kt ∈ keyword_tags, kt.2 = tag ∧
        pyIn kt.1 (content_lower title body) = true ∧ tag ∉ selected := by
    unfold all_tags_to_send
    rw [List.mem_dedup, List.mem_append,
      mem_auto_tags (content_lower title body) selected tag]
  refine ⟨hmain, fun hzero => ?_, fun env catFetch post nd p h => ?_⟩
  · rw [hmain]
    constructor
    · rintro (h | ⟨kt, hkt, _, hin, _⟩)
      · exact h
      · rw [hzero kt hkt] at hin
        exact absurd hin (by simp)
    · exact Or.inl
  · rw [postPublish_payload env catFetch post nd p h]

theorem publish_fst (env : PublishEnv) (catFetch : List (String × Nat))
    (post : PostOutcome) (nd : NewsData) :
    (publish_news_to_wordpress env catFetch post nd).1 =
      pubResult env post (pubTitle nd.news) (pubBody nd.news) := by
  unfold publish_news_to_wordpress pubResult
  dsimp only
  split_ifs <;> rfl

/-- Claim C6 witness: a keyword-free content keeps the requested set, and
the concrete posted payload carries exactly the merged tag list. -/
theorem c6_tag_union_witness :
    ("gold" ∈ all_tags_to_send ["gold"] (content_lower "x" "y") ↔
      "gold" ∈ ["gold"]) ∧
    ({ title := "Title", content := "Body", wpToken := "tok",
       post_status := "publish", catIds := [], tagNames := ["t1"],
       featured_image_id := none } : Payload).tagNames =
      all_tags_to_send ["t1"]
        (content_lower (pubTitle "Title\nBody") (pubBody "Title\nBody")) :=
  ⟨(c6_tag_union "x" "y" ["gold"] "gold").2.1 (by decide),
   (c6_tag_union "x" "y" ["gold"] "gold").2.2 envNoPw [] postSuccess
     { news := "Title\nBody", tags := ["t1"] }
     { title := "Title", content := "Body", wpToken := "tok",
       post_status := "publish", catIds := [], tagNames := ["t1"],
       featured_image_id := none } (by decide)⟩

/-- Claim C8 counterexample: the category "X" is present in the fetched
map with remote id 0, yet it contributes nothing to the posted id list (a
falsy id fails the Python truthiness check), while the publish call still
succeeds. -/
theorem c8_counterexample :
    lookupCat [("X", 0)] "X" = some 0 ∧
    category_ids [("X", 0)] ["X"] = [] ∧
    (publish_news_to_wordpress envPw [("X", 0)] postSuccess
      { news := "Title\nBody", categories := ["X"] }).1.status = "success" ∧
    (publish_news_to_wordpress envPw [("X", 0)] postSuccess
      { news := "Title\nBody", categories := ["X"] }).2 =
      [NetOp.fetchCategories,
       NetOp.postPublish
         { title := "Title", content := "Body", wpToken := "tok",
           post_status := "publish", catIds := [], tagNames := [],
           featured_image_id := none }] :=
  ⟨rfl, rfl, rfl, rfl⟩

/-- Claim C8 as amended: a requested category name contributes its remote
id to the posted list exactly when the category map holds it with a
non-zero (truthy) id; names missing from the map — or mapped to the
falsy id 0 — are dropped; and the requested category list never changes
the returned publish outcome, so dropped names cannot fail the call. -/
theorem c8_category_mapping :
    (∀ (wp : List (String × Nat)) (names : List String) (i : Nat),
      i ∈ category_ids wp names ↔
        ∃ n ∈ names, lookupCat wp n = some i ∧ i ≠ 0) ∧
    (∀ (env : PublishEnv) (catFetch : List (String × Nat))
       (post : PostOutcome) (nd : NewsData) (cs1 cs2 : List String),
      (publish_news_to_wordpress env catFetch post
        { nd with categories := cs1 }).1 =
      (publish_news_to_wordpress env catFetch post
        { nd with categories := cs2 }).1) := by
  constructor
  · intro wp names i
    unfold category_ids
    rw [List.mem_filterMap]
    constructor
    · rintro ⟨n, hn, hsome⟩
      cases hl : lookupCat wp n with
      | none => rw [hl] at hsome; exact absurd hsome (by simp)
      | some j =>
        rw [hl] at hsome
        by_cases hj : j = 0
        · subst hj; simp at hsome
        · simp only [hj, if_true, ne_eq, not_false_eq_true,
            Option.some.injEq] at hsome
          subst hsome
          exact ⟨n, hn, hl, hj⟩
    · rintro ⟨n, hn, hl, hi⟩
      refine ⟨n, hn, ?_⟩
      rw [hl]
      simp [hi]
  · intro env catFetch post nd cs1 cs2
    rw [publish_fst, publish_fst]

theorem pubResult_total (env : PublishEnv) (post : PostOutcome)
    (title body : String) :
    (pubResult env post title body).status = "success" ∨
    ((pubResult env post title body).status = "error" ∧
      (pubResult env post title body).detail ≠ none) := by
  unfold pubResult
  split_ifs <;> try simp
  cases post with
  | response st b =>
    by_cases hst : st = 200 <;> simp only [hst, if_true, if_false]
    · cases b with
      | valid j =>
        by_cases hjs : j.status = some "success" <;> simp [hjs]
      | invalid text errmsg => simp
    · cases b <;> simp
  | connectionError m => simp
  | timeoutError m => simp
  | requestError m => simp
  | otherError m => simp

theorem pubResult_not_success_error (env : PublishEnv) (post : PostOutcome)
    (title body : String)
    (h : ∀ j, post = .response 200 (.valid j) → j.status ≠ some "success") :
    (pubResult env post title body).status = "error" := by
  unfold pubResult
  split_ifs <;> try rfl
  cases post with
  | response st b =>
    by_cases hst : st = 200
    · subst hst
      simp only [if_true]
      cases b with
      | valid j =>
        have hj := h j rfl
        simp [hj]
      | invalid text errmsg => rfl
    · simp only [if_neg hst]
      cases b <;> rfl
  | connectionError m => rfl
  | timeoutError m => rfl
  | requestError m => rfl
  | otherError m => rfl

/-- Claim C9: publish_news_to_wordpress never raises past its boundary:
for every POST behaviour the returned dict has status "success" or
status "error" with a detail message present, and each caught network
failure (connection, timeout, request error, generic exception),
malformed JSON body, non-200 status and missing success marker yields an
error outcome. -/
theorem c9_publish_error_boundary (env : PublishEnv)
    (catFetch : List (String × Nat)) (nd : NewsData) :
    (∀ post,
      (publish_news_to_wordpress env catFetch post nd).1.status =
        "success" ∨
      ((publish_news_to_wordpress env catFetch post nd).1.status =
        "error" ∧
       (publish_news_to_wordpress env catFetch post nd).1.detail ≠ none)) ∧
    (∀ m, (publish_news_to_wordpress env catFetch
      (.connectionError m) nd).1.status = "error") ∧
    (∀ m, (publish_news_to_wordpress env catFetch
      (.timeoutError m) nd).1.status = "error") ∧
    (∀ m, (publish_news_to_wordpress env catFetch
      (.requestError m) nd).1.status = "error") ∧
    (∀ m, (publish_news_to_wordpress env catFetch
      (.otherError m) nd).1.status = "error") ∧
    (∀ text em, (publish_news_to_wordpress env catFetch
      (.response 200 (.invalid text em)) nd).1.status = "error") ∧
    (∀ st b, st ≠ 200 → (publish_news_to_wordpress env catFetch
      (.response st b) nd).1.status = "error") ∧
    (∀ j, j.status ≠ some "success" → (publish_news_to_wordpress env
      catFetch (.response 200 (.valid j)) nd).1.status = "error") := by
  refine ⟨fun post => ?_, fun m => ?_, fun m => ?_, fun m => ?_,
    fun m => ?_, fun text em => ?_, fun st b hst => ?_, fun j hj => ?_⟩ <;>
    rw [publish_fst]
  · exact pubResult_total env post (pubTitle nd.news) (pubBody nd.news)
  · exact pubResult_not_success_error _ _ _ _ (fun j h => by simp at h)
  · exact pubResult_not_success_error _ _ _ _ (fun j h => by simp at h)
  · exact pubResult_not_success_error _ _ _ _ (fun j h => by simp at h)
  · exact pubResult_not_success_error _ _ _ _ (fun j h => by simp at h)
  · exact pubResult_not_success_error _ _ _ _ (fun j h => by simp at h)
  · exact pubResult_not_success_error _ _ _ _ (fun j h => by
      injection h with h1 h2
      exact absurd h1 hst)
  · exact pubResult_not_success_error _ _ _ _ (fun j2 h => by
      injection h with h1 h2
      injection h2 with h3
      rw [← h3]
      exact hj)

/-- Claim C9 witness at a non-200 status and a missing success marker. -/
theorem c9_publish_error_boundary_witness :
    (publish_news_to_wordpress envNoPw [] (.response 500 (.valid {}))
      { news := "Title\nBody" }).1.status = "error" ∧
    (publish_news_to_wordpress envNoPw []
      (.response 200 (.valid { status := some "x" }))
      { news := "Title\nBody" }).1.status = "error" :=
  ⟨(c9_publish_error_boundary envNoPw []
      { news := "Title\nBody" }).2.2.2.2.2.2.1 500 (.valid {}) (by decide),
   (c9_publish_error_boundary envNoPw []
      { news := "Title\nBody" }).2.2.2.2.2.2.2
      { status := some "x" } (by decide)⟩
